import Mathlib

/-!
Shallow embedding of the VitaApp running-weather scoring code.

Covered source files:
- src/enhanced_rwi.py : heat index, wind-string parsing, Running Weather
  Index (RWI) score with five component scores and an integer rating.
- src/Backups/multi_agent_runner_with_gemini_score.py : the recommendation
  engine (_get_heat_stress_guidance, _get_wind_guidance, _get_precip_guidance,
  _get_aqi_guidance, _get_running_recommendation).

Modelling conventions:
- Python floats are modelled by exact rationals; the decimal literals of the
  source are translated to the rationals they denote.
- Python values that may be either a number or a string (the sentinel
  value is the string N/A) are modelled by PyVal; arithmetic or an order
  comparison applied to a string raises TypeError in Python, which is
  modelled by an Except error result.
- In the recommendation engine the weather fields are either numeric or the
  sentinel N/A; they are modelled by Option of a rational, none being N/A.
- Python round(x, n) (banker's rounding) is modelled by roundHalfEven on the
  exact rational; str.lower and str.split are modelled by executable
  character-list recursions.
-/

namespace VitaApp

/-- Model of a Python value that is either a number or a string. -/
inductive PyVal where
  | num (q : ℚ)
  | str (s : String)
deriving DecidableEq

/-- Accumulator-based tokenizer: Python str.split() with no arguments,
splitting on runs of whitespace and discarding empty tokens. -/
def splitWsAux : List Char → List Char → List String
  | [], acc => if acc.isEmpty then [] else [String.mk acc.reverse]
  | c :: cs, acc =>
    if c.isWhitespace then
      (if acc.isEmpty then [] else [String.mk acc.reverse]) ++ splitWsAux cs []
    else splitWsAux cs (c :: acc)

/-- Python str.split() with no arguments. -/
def pySplitWs (s : String) : List String := splitWsAux s.toList []

/-- Python str.lower() (ASCII case folding suffices for the repository's
forecast strings). -/
def pyToLower (s : String) : String := String.mk (s.toList.map Char.toLower)

/-- Decides whether a character-list pattern is a prefix of a list. -/
def charsHavePrefix : List Char → List Char → Bool
  | [], _ => true
  | _ :: _, [] => false
  | a :: as, b :: bs => a == b && charsHavePrefix as bs

/-- Decides whether a character-list pattern occurs inside a list. -/
def charsContain (pat : List Char) : List Char → Bool
  | [] => charsHavePrefix pat []
  | b :: bs => charsHavePrefix pat (b :: bs) || charsContain pat bs

/-- Python substring test: pat in s. -/
def containsSubstr (s pat : String) : Bool := charsContain pat.toList s.toList

/-- True when every character of the list is a decimal digit. -/
def allDigits (l : List Char) : Bool := l.all (fun c => c.isDigit)

/-- Numeric value of a list of decimal digits. -/
def digitsVal (l : List Char) : ℕ := l.foldl (fun a c => a * 10 + (c.toNat - 48)) 0

/-- Splits a character list at each dot. -/
def splitDotAux : List Char → List Char → List (List Char)
  | [], acc => [acc.reverse]
  | c :: cs, acc => if c = '.' then acc.reverse :: splitDotAux cs [] else splitDotAux cs (c :: acc)

/-- Model of Python float(s) on a token: optional sign, decimal digits with an
optional dot (the forms the repository's wind strings can take); any other
token, such as N/A or calm, raises ValueError, modelled by none. -/
def parseDecimal (s : String) : Option ℚ :=
  let sb : ℚ × List Char :=
    match s.toList with
    | '-' :: t => (-1, t)
    | '+' :: t => (1, t)
    | t => (1, t)
  match splitDotAux sb.2 [] with
  | [i] => if i ≠ [] ∧ allDigits i then some (sb.1 * digitsVal i) else none
  | [i, f] =>
    if (i ≠ [] ∨ f ≠ []) ∧ allDigits i ∧ allDigits f then
      some (sb.1 * ((digitsVal i : ℚ) + (digitsVal f : ℚ) / (10 : ℚ) ^ f.length))
    else none
  | _ => none

/-- src/enhanced_rwi.py lines 29-33, parse_float: a number is returned as a
float; a non-empty string is split on whitespace and its first token passed to
float(), which raises ValueError on a non-numeric token (and an all-whitespace
string raises IndexError on the empty token list); an empty string gives 0. -/
def parse_float (wind_str : PyVal) : Except String ℚ :=
  match wind_str with
  | .num q => .ok q
  | .str s =>
    if s = "" then .ok 0
    else
      match pySplitWs s with
      | [] => .error ("IndexError")
      | t :: _ =>
        match parseDecimal t with
        | some q => .ok q
        | none => .error ("ValueError")

/-- Python arithmetic or order comparison between a string and a number raises
TypeError; a numeric value is used as is. -/
def asNum (v : PyVal) : Except String ℚ :=
  match v with
  | .num q => .ok q
  | .str _ => .error ("TypeError")

/-- src/enhanced_rwi.py line 13: the simple heat-index approximation. -/
def simpleHI (T R : ℚ) : ℚ :=
  1/2 * (T + 61 + (T - 68) * (12/10) + R * (94/1000))

/-- src/enhanced_rwi.py lines 17-25: the full Rothfusz regression. -/
def rothHI (T R : ℚ) : ℚ :=
  -42379/1000 + 204901523/100000000 * T + 1014333127/100000000 * R
    - 22475541/100000000 * T * R - 683783/100000000 * T ^ 2
    - 5481717/100000000 * R ^ 2 + 122874/100000000 * T ^ 2 * R
    + 85282/100000000 * T * R ^ 2 - 199/100000000 * T ^ 2 * R ^ 2

/-- src/enhanced_rwi.py lines 4-27, calculate_heat_index: the simple
approximation, replaced by the Rothfusz regression when it reaches 80. -/
def calculate_heat_index (temp_f humidity_percent : ℚ) : ℚ :=
  let HI := simpleHI temp_f humidity_percent
  if HI ≥ 80 then rothHI temp_f humidity_percent else HI

/-- src/enhanced_rwi.py lines 63-74: thermal comfort score from heat index. -/
def thermalScore (heat_index : ℚ) : ℚ :=
  if heat_index ≤ 65 then 5
  else if heat_index ≤ 75 then 45/10 - (heat_index - 65) * (5/100)
  else if heat_index ≤ 85 then 4 - (heat_index - 75) * (2/10)
  else if heat_index ≤ 95 then 2 - (heat_index - 85) * (5/100)
  else if heat_index ≤ 105 then 15/10 - (heat_index - 95) * (5/100)
  else 1

/-- src/enhanced_rwi.py lines 77-82: cold-temperature cap on the thermal
comfort score. -/
def coldAdjust (T S_H : ℚ) : ℚ :=
  if T < 20 then 1
  else if T < 30 then min S_H 2
  else if T < 40 then min S_H 3
  else S_H

/-- Python: any(word in forecast_lower for word in ['sunny', 'clear', 'fair']). -/
def sunnyWords (f : String) : Bool :=
  containsSubstr f ("sunny") || containsSubstr f ("clear") || containsSubstr f ("fair")

/-- Python: any(word in forecast_lower for word in
['partly cloudy', 'partly sunny', 'scattered']). -/
def partlyWords (f : String) : Bool :=
  containsSubstr f ("partly cloudy") || containsSubstr f ("partly sunny")
    || containsSubstr f ("scattered")

/-- Python: any(word in forecast_lower for word in
['cloudy', 'overcast', 'mostly cloudy']). -/
def cloudyWords (f : String) : Bool :=
  containsSubstr f ("cloudy") || containsSubstr f ("overcast")
    || containsSubstr f ("mostly cloudy")

/-- src/enhanced_rwi.py lines 86-103: solar/cloud cover score, clamped to
the interval from 1 to 5. -/
def solarScore (heat_index : ℚ) (forecast_lower : String) : ℚ :=
  let S_S :=
    if sunnyWords forecast_lower then
      if heat_index > 70 then
        let solar_penalty := min (8/10) ((heat_index - 70) * (2/100))
        5 - solar_penalty * 5
      else 5
    else if partlyWords forecast_lower then 5
    else if cloudyWords forecast_lower then
      if heat_index > 75 then 5 + 5/10 else 5
    else 5
  min 5 (max 1 S_S)

/-- src/enhanced_rwi.py lines 107-118: wind score. -/
def windScore (V : ℚ) : ℚ :=
  if V ≤ 1 then 35/10
  else if V ≤ 5 then 45/10
  else if V ≤ 12 then 5
  else if V ≤ 20 then 45/10
  else if V ≤ 30 then 3
  else 2

/-- src/enhanced_rwi.py lines 121-132: precipitation score. -/
def precipScore (P : ℚ) : ℚ :=
  if P < 5 then 5
  else if P < 15 then 45/10
  else if P < 30 then 4
  else if P < 50 then 3
  else if P < 70 then 2
  else 1

/-- src/enhanced_rwi.py lines 136-145: dew point comfort score. -/
def dewScore (D : ℚ) : ℚ :=
  if D ≤ 45 then 5
  else if D ≤ 55 then 45/10
  else if D ≤ 65 then 35/10
  else if D ≤ 70 then 25/10
  else 15/10

/-- src/enhanced_rwi.py lines 161-170: integer rating from the clamped RWI. -/
def rwiRating (RWI : ℚ) : ℕ :=
  if RWI ≥ 45/10 then 5
  else if RWI ≥ 35/10 then 4
  else if RWI ≥ 25/10 then 3
  else if RWI ≥ 15/10 then 2
  else 1

/-- Python round to an integer: nearest, ties to even. -/
def roundHalfEven (x : ℚ) : ℤ :=
  if x - ⌊x⌋ < 1/2 then ⌊x⌋
  else if 1/2 < x - ⌊x⌋ then ⌊x⌋ + 1
  else if ⌊x⌋ % 2 = 0 then ⌊x⌋ else ⌊x⌋ + 1

/-- Python round(x, ndigits) on the exact rational value. -/
def pyRound (x : ℚ) (ndigits : ℕ) : ℚ :=
  (roundHalfEven (x * 10 ^ ndigits) : ℚ) / 10 ^ ndigits

/-- Component scores of the RWI result dictionary. -/
structure RWIComponents where
  thermal_comfort : ℚ
  solar_conditions : ℚ
  wind : ℚ
  precipitation : ℚ
  dewpoint_comfort : ℚ
deriving DecidableEq

/-- Result dictionary of calculate_rwi (lines 172-183). -/
structure RWIResult where
  rwi_score : ℚ
  rating : ℕ
  heat_index : ℚ
  components : RWIComponents
deriving DecidableEq

/-- src/enhanced_rwi.py lines 58-183: the RWI computation on already numeric
inputs (T temperature, H humidity, V wind, P precipitation, D dewpoint). -/
def calculateRwiCore (T H V P D : ℚ) (forecast : String) : RWIResult :=
  let heat_index := calculate_heat_index T H
  let S_H := coldAdjust T (thermalScore heat_index)
  let S_S := solarScore heat_index (pyToLower forecast)
  let S_W := windScore V
  let S_P := precipScore P
  let S_D := dewScore D
  let RWI := 45/100 * S_H + 20/100 * S_S + 15/100 * S_W + 10/100 * S_P + 10/100 * S_D
  let RWIc := max 1 (min 5 RWI)
  { rwi_score := pyRound RWIc 2
    rating := rwiRating RWIc
    heat_index := pyRound heat_index 1
    components :=
      { thermal_comfort := pyRound S_H 2
        solar_conditions := pyRound S_S 2
        wind := pyRound S_W 2
        precipitation := pyRound S_P 2
        dewpoint_comfort := pyRound S_D 2 } }

/-- src/enhanced_rwi.py lines 35-183, calculate_rwi. Python evaluates
parse_float(wind_speed) at line 54, then uses temperature and humidity
arithmetically in calculate_heat_index, and compares precipitation and
dewpoint numerically; a string in any of those positions raises. The checks
are hoisted here in that order, preserving exactly which inputs raise. -/
def calculate_rwi (temperature humidity wind_speed precipitation : PyVal)
    (forecast : String) (dewpoint_fahrenheit : PyVal) : Except String RWIResult :=
  match parse_float wind_speed with
  | .error e => .error e
  | .ok V =>
    match asNum temperature with
    | .error e => .error e
    | .ok T =>
      match asNum humidity with
      | .error e => .error e
      | .ok H =>
        match asNum precipitation with
        | .error e => .error e
        | .ok P =>
          match asNum dewpoint_fahrenheit with
          | .error e => .error e
          | .ok D => .ok (calculateRwiCore T H V P D forecast)

/-- True when an Except result is an error, that is, when the modelled Python
call raises an exception. -/
def isErr (r : Except String RWIResult) : Bool :=
  match r with
  | .error _ => true
  | .ok _ => false

/-- Risk level constants of the recommendation engine (lines 762-766). -/
def IDEAL : ℕ := 0

/-- Risk level MANAGEABLE. -/
def MANAGEABLE : ℕ := 1

/-- Risk level CAUTION. -/
def CAUTION : ℕ := 2

/-- Risk level HIGH_RISK. -/
def HIGH_RISK : ℕ := 3

/-- Risk level DANGEROUS. -/
def DANGEROUS : ℕ := 4

/-- Lines 768-788, _get_heat_stress_guidance: heat stress risk level and
guidance from temperature and dew point; none models the sentinel N/A. -/
def _get_heat_stress_guidance (temp dewpoint : Option ℚ) : ℕ × String :=
  match temp, dewpoint with
  | some t, some d =>
    if t ≤ 75 then
      if d < 60 then (IDEAL, "Ideal heat/dew point. Good for all workouts.")
      else if 60 ≤ d ∧ d ≤ 65 then
        (MANAGEABLE, "Manageable heat. Hydrate well; avoid very long tempos.")
      else if 66 ≤ d ∧ d ≤ 70 then
        (CAUTION, "Caution: High humidity. Stick to easy runs and hydrate.")
      else if 71 ≤ d ∧ d ≤ 75 then
        (HIGH_RISK, "High heat stress risk. Short/easy runs only, or move indoors.")
      else (DANGEROUS, "Dangerous heat/humidity. Postpone or run indoors.")
    else if 76 ≤ t ∧ t ≤ 85 then
      if d < 60 then (CAUTION, "Temp is high but dew point is low. Hydrate well.")
      else if 60 ≤ d ∧ d ≤ 65 then
        (CAUTION, "Caution: Heat and humidity rising. Easy runs only.")
      else if 66 ≤ d ∧ d ≤ 70 then
        (HIGH_RISK, "High Risk: Avoid intervals. Consider shaded routes or treadmill.")
      else if 71 ≤ d ∧ d ≤ 75 then
        (HIGH_RISK, "High Risk: Heat and humidity are a major factor. Short/easy runs only.")
      else (DANGEROUS, "Very Dangerous conditions. Strongly consider indoor options.")
    else
      if d < 66 then (HIGH_RISK, "High Risk: Very hot. Run early/late, hydrate aggressively.")
      else if 66 ≤ d ∧ d ≤ 75 then
        (DANGEROUS, "Very Dangerous conditions due to extreme heat and humidity.")
      else (DANGEROUS, "Extreme Danger: Outdoor running is not recommended.")
  | _, _ => (CAUTION, "Heat data unavailable; hydrate and monitor effort.")

/-- Lines 790-798, _get_wind_guidance. -/
def _get_wind_guidance (wind : Option ℚ) : ℕ × String :=
  match wind with
  | none => (IDEAL, "")
  | some w =>
    if w ≤ 15 then (IDEAL, "")
    else if 16 ≤ w ∧ w ≤ 25 then
      (MANAGEABLE, "Windy: Focus on effort, not pace, as there will be noticeable drag.")
    else (CAUTION, "High Wind: Risk of dehydration and safety hazards. Consider treadmill.")

/-- Lines 800-810, _get_precip_guidance: the N/A test on precipitation comes
first; only for a numeric precipitation is the forecast checked for thunder. -/
def _get_precip_guidance (precip : Option ℚ) (forecast : String) : ℕ × String :=
  match precip with
  | none => (IDEAL, "")
  | some p =>
    if containsSubstr forecast ("thunder") then
      (DANGEROUS, "Thunderstorms forecast: Unsafe for outdoor running. Postpone or run indoors.")
    else if p < 20 then (IDEAL, "")
    else if 20 ≤ p ∧ p ≤ 60 then
      (MANAGEABLE, "Rain likely: Wear moisture-wicking clothes and watch for blisters.")
    else (CAUTION, "Heavy Rain: High chance of getting soaked. Run indoors if preferred.")

/-- Lines 812-824, _get_aqi_guidance. -/
def _get_aqi_guidance (aqi_value : Option ℚ) : ℕ × String :=
  match aqi_value with
  | none => (IDEAL, "AQI data unavailable; be mindful of air quality.")
  | some a =>
    if a ≤ 50 then (IDEAL, "")
    else if 51 ≤ a ∧ a ≤ 100 then
      (MANAGEABLE, "AQI is Moderate. Sensitive groups should take caution.")
    else if 101 ≤ a ∧ a ≤ 150 then
      (CAUTION, "AQI Unhealthy for Sensitive Groups. Consider a treadmill or mask.")
    else if 151 ≤ a ∧ a ≤ 200 then
      (HIGH_RISK, "AQI is Unhealthy. Outdoor running is not recommended.")
    else (DANGEROUS, "AQI is Very Unhealthy/Hazardous. Avoid all outdoor activity.")

/-- Lines 833-840 of _get_running_recommendation: the four guidance factors,
with the forecast lowercased as at line 831. -/
def rrGuidanceFactors (temp dewpoint wind precip : Option ℚ) (forecast : String)
    (aqi_value : Option ℚ) : List (ℕ × String) :=
  [_get_heat_stress_guidance temp dewpoint,
   _get_wind_guidance wind,
   _get_precip_guidance precip (pyToLower forecast),
   _get_aqi_guidance aqi_value]

/-- Line 843 of _get_running_recommendation: the highest risk level across
all factors (Python max over the four risk levels; risk levels are natural
numbers, so folding max from 0 agrees with the maximum of the list). -/
def rrHighestRisk (temp dewpoint wind precip : Option ℚ) (forecast : String)
    (aqi_value : Option ℚ) : ℕ :=
  ((rrGuidanceFactors temp dewpoint wind precip forecast aqi_value).map Prod.fst).foldl max 0

/-- Line 849 of _get_running_recommendation: the fixed UV advisory note. -/
def uvNote : String :=
  "UV Index data not available; check local sources for sun safety on clear days."

/-- Lines 846-849 of _get_running_recommendation: the non-ideal, non-empty
guidance messages, followed by the UV note. -/
def rrMessages (temp dewpoint wind precip : Option ℚ) (forecast : String)
    (aqi_value : Option ℚ) : List String :=
  (((rrGuidanceFactors temp dewpoint wind precip forecast aqi_value).filter
      (fun fa => decide (IDEAL < fa.1) && fa.2 != "")).map Prod.snd) ++ [uvNote]

/-- Lines 852-862 of _get_running_recommendation: the summary headline. -/
def rrSummaryHeader (highest_risk : ℕ) : String :=
  if highest_risk = IDEAL then "✅ Excellent Conditions: Great for any workout."
  else if highest_risk = MANAGEABLE then "👍 Good Conditions: Minor factors to consider."
  else if highest_risk = CAUTION then "⚠️ Caution Advised: Adjust your run based on conditions."
  else if highest_risk = HIGH_RISK then
    "❗️ High Risk: Consider a short/easy run or an indoor alternative."
  else if highest_risk = DANGEROUS then
    "🛑 Dangerous Conditions: Outdoor running is not recommended."
  else ""

/-- Lines 826-869, _get_running_recommendation: headline plus the bulleted
message list. -/
def _get_running_recommendation (temp dewpoint wind precip : Option ℚ)
    (forecast : String) (aqi_value : Option ℚ) : String :=
  let msgs := rrMessages temp dewpoint wind precip forecast aqi_value
  let header := rrSummaryHeader (rrHighestRisk temp dewpoint wind precip forecast aqi_value)
  if msgs ≠ [] then
    header ++ "<ul>" ++ String.join (msgs.map (fun m => "<li>" ++ m ++ "</li>")) ++ "</ul>"
  else header

/-! Helper lemmas. -/

/-- Banker's rounding never goes below the floor. -/
theorem roundHalfEven_ge_floor (x : ℚ) : ⌊x⌋ ≤ roundHalfEven x := by
  unfold roundHalfEven
  split_ifs <;> omega

/-- Banker's rounding never goes above the ceiling. -/
theorem roundHalfEven_le_ceil (x : ℚ) : roundHalfEven x ≤ ⌈x⌉ := by
  have hfc : ⌊x⌋ ≤ ⌈x⌉ := Int.floor_le_ceil x
  have hup : (⌊x⌋ : ℚ) < x → ⌊x⌋ + 1 ≤ ⌈x⌉ := by
    intro hlt
    have h1 : (⌊x⌋ : ℚ) < (⌈x⌉ : ℚ) := lt_of_lt_of_le hlt (Int.le_ceil x)
    have h2 : ⌊x⌋ < ⌈x⌉ := by exact_mod_cast h1
    omega
  unfold roundHalfEven
  split_ifs with h1 h2 h3
  · exact hfc
  · have : (⌊x⌋ : ℚ) < x := by linarith [Int.floor_le x]
    exact hup this
  · exact hfc
  · have : (⌊x⌋ : ℚ) < x := by
      by_contra hc
      push_neg at hc
      have := Int.floor_le x
      have hx : x = (⌊x⌋ : ℚ) := le_antisymm hc this
      rw [hx] at h1
      simp at h1
    exact hup this

/-- Rounding to two decimals preserves membership in the interval [1, 5]. -/
theorem pyRound2_mem (x : ℚ) (h1 : 1 ≤ x) (h5 : x ≤ 5) :
    1 ≤ pyRound x 2 ∧ pyRound x 2 ≤ 5 := by
  have hlo : (100 : ℤ) ≤ ⌊x * 100⌋ := Int.le_floor.mpr (by push_cast; linarith)
  have hhi : ⌈x * 100⌉ ≤ (500 : ℤ) := Int.ceil_le.mpr (by push_cast; linarith)
  have hg := roundHalfEven_ge_floor (x * 100)
  have hl := roundHalfEven_le_ceil (x * 100)
  have hlo2 : (100 : ℚ) ≤ (roundHalfEven (x * 100) : ℚ) := by exact_mod_cast le_trans hlo hg
  have hhi2 : (roundHalfEven (x * 100) : ℚ) ≤ 500 := by exact_mod_cast le_trans hl hhi
  unfold pyRound
  norm_num
  constructor <;> linarith

/-- The thermal comfort score always lies in [1, 5]. -/
theorem thermalScore_mem (hi : ℚ) : 1 ≤ thermalScore hi ∧ thermalScore hi ≤ 5 := by
  unfold thermalScore
  split_ifs <;> constructor <;> linarith

/-- The cold adjustment keeps a score in [1, 5] inside [1, 5]. -/
theorem coldAdjust_mem (T s : ℚ) (h1 : 1 ≤ s) (h5 : s ≤ 5) :
    1 ≤ coldAdjust T s ∧ coldAdjust T s ≤ 5 := by
  unfold coldAdjust
  split_ifs
  · norm_num
  · exact ⟨le_min h1 (by norm_num), le_trans (min_le_right _ _) (by norm_num)⟩
  · exact ⟨le_min h1 (by norm_num), le_trans (min_le_right _ _) (by norm_num)⟩
  · exact ⟨h1, h5⟩

/-- The solar score always lies in [1, 5] thanks to the final clamp. -/
theorem solarScore_mem (hi : ℚ) (f : String) :
    1 ≤ solarScore hi f ∧ solarScore hi f ≤ 5 := by
  unfold solarScore
  exact ⟨le_min (by norm_num) (le_max_left _ _), min_le_left _ _⟩

/-- The wind score always lies in [1, 5]. -/
theorem windScore_mem (V : ℚ) : 1 ≤ windScore V ∧ windScore V ≤ 5 := by
  unfold windScore
  split_ifs <;> norm_num

/-- The precipitation score always lies in [1, 5]. -/
theorem precipScore_mem (P : ℚ) : 1 ≤ precipScore P ∧ precipScore P ≤ 5 := by
  unfold precipScore
  split_ifs <;> norm_num

/-- The dew point comfort score always lies in [1, 5]. -/
theorem dewScore_mem (D : ℚ) : 1 ≤ dewScore D ∧ dewScore D ≤ 5 := by
  unfold dewScore
  split_ifs <;> norm_num

/-- C4: for every numeric input, including extremes such as T = 150 or
humidity = 200, the returned RWI score and each of the five component scores
(thermal comfort, solar conditions, wind, precipitation, dewpoint comfort)
lie within the interval [1, 5]. -/
theorem c4_all_scores_bounded (T H V P D : ℚ) (forecast : String) :
    (1 ≤ (calculateRwiCore T H V P D forecast).rwi_score ∧
      (calculateRwiCore T H V P D forecast).rwi_score ≤ 5) ∧
    (1 ≤ (calculateRwiCore T H V P D forecast).components.thermal_comfort ∧
      (calculateRwiCore T H V P D forecast).components.thermal_comfort ≤ 5) ∧
    (1 ≤ (calculateRwiCore T H V P D forecast).components.solar_conditions ∧
      (calculateRwiCore T H V P D forecast).components.solar_conditions ≤ 5) ∧
    (1 ≤ (calculateRwiCore T H V P D forecast).components.wind ∧
      (calculateRwiCore T H V P D forecast).components.wind ≤ 5) ∧
    (1 ≤ (calculateRwiCore T H V P D forecast).components.precipitation ∧
      (calculateRwiCore T H V P D forecast).components.precipitation ≤ 5) ∧
    (1 ≤ (calculateRwiCore T H V P D forecast).components.dewpoint_comfort ∧
      (calculateRwiCore T H V P D forecast).components.dewpoint_comfort ≤ 5) := by
  have hth := thermalScore_mem (calculate_heat_index T H)
  have hca := coldAdjust_mem T (thermalScore (calculate_heat_index T H)) hth.1 hth.2
  have hso := solarScore_mem (calculate_heat_index T H) (pyToLower forecast)
  have hw := windScore_mem V
  have hp := precipScore_mem P
  have hd := dewScore_mem D
  simp only [calculateRwiCore]
  exact ⟨pyRound2_mem _ (le_max_left _ _) (max_le (by norm_num) (min_le_left _ _)),
    pyRound2_mem _ hca.1 hca.2, pyRound2_mem _ hso.1 hso.2,
    pyRound2_mem _ hw.1 hw.2, pyRound2_mem _ hp.1 hp.2, pyRound2_mem _ hd.1 hd.2⟩

/-- C3: for every RWI value the derived integer rating matches the documented
thresholds exactly (4.5 and above gives 5; 3.5 up to but excluding 4.5 gives
4; 2.5 up to 3.5 gives 3; 1.5 up to 2.5 gives 2; below 1.5 gives 1), and the
rating is monotone non-decreasing in the RWI score. -/
theorem c3_rating_thresholds (x y : ℚ) :
    (45/10 ≤ x → rwiRating x = 5) ∧
    (35/10 ≤ x ∧ x < 45/10 → rwiRating x = 4) ∧
    (25/10 ≤ x ∧ x < 35/10 → rwiRating x = 3) ∧
    (15/10 ≤ x ∧ x < 25/10 → rwiRating x = 2) ∧
    (x < 15/10 → rwiRating x = 1) ∧
    (x ≤ y → rwiRating x ≤ rwiRating y) := by
  refine ⟨fun h => ?_, fun h => ?_, fun h => ?_, fun h => ?_, fun h => ?_, fun h => ?_⟩
  · unfold rwiRating; split_ifs <;> first | rfl | (exfalso; linarith)
  · obtain ⟨ha, hb⟩ := h
    unfold rwiRating; split_ifs <;> first | rfl | (exfalso; linarith)
  · obtain ⟨ha, hb⟩ := h
    unfold rwiRating; split_ifs <;> first | rfl | (exfalso; linarith)
  · obtain ⟨ha, hb⟩ := h
    unfold rwiRating; split_ifs <;> first | rfl | (exfalso; linarith)
  · unfold rwiRating; split_ifs <;> first | rfl | (exfalso; linarith)
  · unfold rwiRating; split_ifs <;> first | omega | (exfalso; linarith)

/-- Witness for C3 at the documented boundary: RWI 4.5 gives rating 5 and
RWI 4.49 gives rating 4. -/
theorem c3_rating_thresholds_witness : rwiRating (45/10) = 5 ∧ rwiRating (449/100) = 4 := by
  constructor
  · exact (c3_rating_thresholds (45/10) 0).1 (by norm_num)
  · exact (c3_rating_thresholds (449/100) 0).2.1 ⟨by norm_num, by norm_num⟩

/-- No heat stress guidance message equals the missing-AQI advisory note. -/
theorem heat_msg_ne_aqi_note (t d : Option ℚ) :
    (_get_heat_stress_guidance t d).2 ≠ ("AQI data unavailable; be mindful of air quality.") := by
  rcases t with _ | t <;> rcases d with _ | d <;>
    simp only [_get_heat_stress_guidance] <;> (try split_ifs) <;> decide

/-- No wind guidance message equals the missing-AQI advisory note. -/
theorem wind_msg_ne_aqi_note (w : Option ℚ) :
    (_get_wind_guidance w).2 ≠ ("AQI data unavailable; be mindful of air quality.") := by
  rcases w with _ | w <;> simp only [_get_wind_guidance] <;> (try split_ifs) <;> decide

/-- No precipitation guidance message equals the missing-AQI advisory note. -/
theorem precip_msg_ne_aqi_note (p : Option ℚ) (f : String) :
    (_get_precip_guidance p f).2 ≠ ("AQI data unavailable; be mindful of air quality.") := by
  rcases p with _ | p <;> simp only [_get_precip_guidance] <;> (try split_ifs) <;> decide

/-- C6 (corrected): when the AQI value is missing, _get_aqi_guidance returns
risk IDEAL together with the advisory note, but _get_running_recommendation
keeps only messages of factors whose risk is strictly above IDEAL, so the
note never appears in the overall recommendation's message list. -/
theorem c6_aqi_note_filtered :
    _get_aqi_guidance none = (IDEAL, "AQI data unavailable; be mindful of air quality.") ∧
    ∀ (temp dewpoint wind precip : Option ℚ) (forecast : String),
      (rrMessages temp dewpoint wind precip forecast none).count
        ("AQI data unavailable; be mindful of air quality.") = 0 := by
  constructor
  · rfl
  · intro temp dewpoint wind precip forecast
    rw [List.count_eq_zero]
    intro hmem
    simp only [rrMessages, rrGuidanceFactors, List.mem_append, List.mem_map,
      List.mem_filter] at hmem
    rcases hmem with ⟨fa, ⟨hin, hcond⟩, hsnd⟩ | hmem
    · simp only [List.mem_cons, List.not_mem_nil, or_false] at hin
      rcases hin with h | h | h | h
      · rw [h] at hsnd; exact absurd hsnd (heat_msg_ne_aqi_note temp dewpoint)
      · rw [h] at hsnd; exact absurd hsnd (wind_msg_ne_aqi_note wind)
      · rw [h] at hsnd; exact absurd hsnd (precip_msg_ne_aqi_note precip (pyToLower forecast))
      · rw [h] at hcond
        simp [_get_aqi_guidance, IDEAL] at hcond
    · simp only [List.mem_singleton] at hmem
      exact absurd hmem (by decide)

/-- C6 counterexample: at a concrete all-ideal input with missing AQI, the
advisory note does not occur in the message list (its count is zero); the
only message is the UV note. -/
theorem c6_counterexample :
    (rrMessages (some 70) (some 50) (some 5) (some 10) ("clear") none).count
      ("AQI data unavailable; be mindful of air quality.") = 0 := by
  have ht : containsSubstr (pyToLower ("clear")) ("thunder") = false := by decide
  have hmsg : rrMessages (some 70) (some 50) (some 5) (some 10) ("clear") none = [uvNote] := by
    norm_num [rrMessages, rrGuidanceFactors, _get_heat_stress_guidance, _get_wind_guidance,
      _get_precip_guidance, _get_aqi_guidance, ht, IDEAL, MANAGEABLE, CAUTION, HIGH_RISK,
      DANGEROUS]
  rw [hmsg]
  decide

/-- C2: the overall recommendation's risk level is the maximum risk level
across the four factor guidances; in particular, whenever the AQI guidance is
DANGEROUS and the other three are IDEAL, the overall risk is DANGEROUS. -/
theorem c2_overall_is_max (temp dewpoint wind precip : Option ℚ) (forecast : String)
    (aqi_value : Option ℚ) :
    rrHighestRisk temp dewpoint wind precip forecast aqi_value =
      max (max (_get_heat_stress_guidance temp dewpoint).1 (_get_wind_guidance wind).1)
        (max (_get_precip_guidance precip (pyToLower forecast)).1
          (_get_aqi_guidance aqi_value).1) ∧
    ((_get_aqi_guidance aqi_value).1 = DANGEROUS →
      (_get_heat_stress_guidance temp dewpoint).1 = IDEAL →
      (_get_wind_guidance wind).1 = IDEAL →
      (_get_precip_guidance precip (pyToLower forecast)).1 = IDEAL →
      rrHighestRisk temp dewpoint wind precip forecast aqi_value = DANGEROUS) := by
  constructor
  · simp only [rrHighestRisk, rrGuidanceFactors, List.map_cons, List.map_nil,
      List.foldl_cons, List.foldl_nil]
    rw [Nat.zero_max, Nat.max_assoc]
  · intro h1 h2 h3 h4
    simp only [rrHighestRisk, rrGuidanceFactors, List.map_cons, List.map_nil,
      List.foldl_cons, List.foldl_nil, h1, h2, h3, h4, IDEAL, DANGEROUS]
    decide

/-- Witness for C2: dangerous AQI (301) with ideal heat, wind and
precipitation gives overall risk DANGEROUS. -/
theorem c2_overall_is_max_witness :
    rrHighestRisk (some 70) (some 50) (some 5) (some 10) ("clear") (some 301) = DANGEROUS := by
  have ht : containsSubstr (pyToLower ("clear")) ("thunder") = false := by decide
  refine (c2_overall_is_max (some 70) (some 50) (some 5) (some 10) ("clear") (some 301)).2
    ?_ ?_ ?_ ?_
  · norm_num [_get_aqi_guidance, DANGEROUS]
  · norm_num [_get_heat_stress_guidance, IDEAL]
  · norm_num [_get_wind_guidance, IDEAL]
  · norm_num [_get_precip_guidance, ht, IDEAL]

/-- C5 (corrected): for every numeric precipitation value, a forecast text
containing thunder makes the precipitation guidance DANGEROUS, overriding the
numeric bands; the N/A test on precipitation, however, comes first. -/
theorem c5_thunder_overrides_numeric (p : ℚ) (forecast : String)
    (h : containsSubstr forecast ("thunder") = true) :
    _get_precip_guidance (some p) forecast =
      (DANGEROUS,
        "Thunderstorms forecast: Unsafe for outdoor running. Postpone or run indoors.") := by
  simp [_get_precip_guidance, h]

/-- Witness for C5 at precipitation 0 and a thunderstorm forecast. -/
theorem c5_thunder_overrides_numeric_witness :
    _get_precip_guidance (some 0) ("thunderstorms expected") =
      (DANGEROUS,
        "Thunderstorms forecast: Unsafe for outdoor running. Postpone or run indoors.") :=
  c5_thunder_overrides_numeric 0 ("thunderstorms expected") (by decide)

/-- C5 counterexample: with precipitation N/A and a forecast containing
thunder, the guidance is IDEAL with no message, not DANGEROUS, because the
N/A test comes before the thunder test. -/
theorem c5_counterexample :
    _get_precip_guidance none ("thunderstorms expected all day") = (IDEAL, "") ∧
    containsSubstr ("thunderstorms expected all day") ("thunder") = true ∧
    IDEAL ≠ DANGEROUS :=
  ⟨rfl, by decide, by decide⟩

/-- C10 (corrected): for every numeric temperature that is at most 75 or lies
in the band from 76 to 85, a dewpoint strictly between 65 and 66 or strictly
between 70 and 71 falls through all integer-bounded band checks and the heat
stress guidance returns DANGEROUS. -/
theorem c10_gap_dewpoints (t d : ℚ) (ht : t ≤ 75 ∨ (76 ≤ t ∧ t ≤ 85))
    (hd : (65 < d ∧ d < 66) ∨ (70 < d ∧ d < 71)) :
    (_get_heat_stress_guidance (some t) (some d)).1 = DANGEROUS := by
  rcases ht with ht | ⟨ht1, ht2⟩ <;> rcases hd with ⟨hd1, hd2⟩ | ⟨hd1, hd2⟩ <;>
    simp only [_get_heat_stress_guidance] <;>
    split_ifs <;>
    first | rfl | (exfalso; (try simp_all) <;> linarith)

/-- Witness for C10 at temperature 70 and dewpoint 65.5. -/
theorem c10_gap_dewpoints_witness :
    (_get_heat_stress_guidance (some 70) (some (131/2))).1 = DANGEROUS :=
  c10_gap_dewpoints 70 (131/2) (Or.inl (by norm_num)) (Or.inl ⟨by norm_num, by norm_num⟩)

/-- C10 counterexample: temperature 75.5 is at most 85 and dewpoint 65.5 lies
strictly between 65 and 66, yet the guidance returns HIGH_RISK, not
DANGEROUS, because 75.5 falls into the gap between the first two temperature
bands and reaches the over-85 branch. -/
theorem c10_counterexample :
    (151/2 : ℚ) ≤ 85 ∧ (65 : ℚ) < 131/2 ∧ (131/2 : ℚ) < 66 ∧
    (_get_heat_stress_guidance (some (151/2)) (some (131/2))).1 = HIGH_RISK ∧
    HIGH_RISK ≠ DANGEROUS := by
  refine ⟨by norm_num, by norm_num, by norm_num, ?_, by decide⟩
  norm_num [_get_heat_stress_guidance, HIGH_RISK]

/-- C1 (corrected): when any of temperature, humidity, wind speed,
precipitation or dewpoint is the sentinel string N/A, calculate_rwi raises
(ValueError from float parsing of the wind string, TypeError from arithmetic
or comparison on the others) instead of substituting a neutral default. -/
theorem c1_na_input_raises (temperature humidity wind_speed precipitation : PyVal)
    (forecast : String) (dewpoint_fahrenheit : PyVal)
    (h : temperature = .str ("N/A") ∨ humidity = .str ("N/A") ∨ wind_speed = .str ("N/A") ∨
      precipitation = .str ("N/A") ∨ dewpoint_fahrenheit = .str ("N/A")) :
    isErr (calculate_rwi temperature humidity wind_speed precipitation forecast
      dewpoint_fahrenheit) = true := by
  have hna : parse_float (.str ("N/A")) = .error ("ValueError") := by
    simp [parse_float, pySplitWs, splitWsAux, parseDecimal, splitDotAux, allDigits]
  have hnaT : asNum (.str ("N/A")) = .error ("TypeError") := rfl
  rcases h with h | h | h | h | h
  · subst h
    cases hw : parse_float wind_speed with
    | error e => simp [calculate_rwi, hw, isErr]
    | ok v => simp [calculate_rwi, hw, hnaT, isErr]
  · subst h
    cases hw : parse_float wind_speed with
    | error e => simp [calculate_rwi, hw, isErr]
    | ok v =>
      cases htv : asNum temperature with
      | error e => simp [calculate_rwi, hw, htv, isErr]
      | ok tq => simp [calculate_rwi, hw, htv, hnaT, isErr]
  · subst h
    simp [calculate_rwi, hna, isErr]
  · subst h
    cases hw : parse_float wind_speed with
    | error e => simp [calculate_rwi, hw, isErr]
    | ok v =>
      cases htv : asNum temperature with
      | error e => simp [calculate_rwi, hw, htv, isErr]
      | ok tq =>
        cases hh : asNum humidity with
        | error e => simp [calculate_rwi, hw, htv, hh, isErr]
        | ok hq => simp [calculate_rwi, hw, htv, hh, hnaT, isErr]
  · subst h
    cases hw : parse_float wind_speed with
    | error e => simp [calculate_rwi, hw, isErr]
    | ok v =>
      cases htv : asNum temperature with
      | error e => simp [calculate_rwi, hw, htv, isErr]
      | ok tq =>
        cases hh : asNum humidity with
        | error e => simp [calculate_rwi, hw, htv, hh, isErr]
        | ok hq =>
          cases hp : asNum precipitation with
          | error e => simp [calculate_rwi, hw, htv, hh, hp, isErr]
          | ok pq => simp [calculate_rwi, hw, htv, hh, hp, hnaT, isErr]

/-- Witness for C1: the all-N/A input with forecast Clear raises. -/
theorem c1_na_input_raises_witness :
    isErr (calculate_rwi (.str ("N/A")) (.str ("N/A")) (.str ("N/A")) (.str ("N/A"))
      ("Clear") (.str ("N/A"))) = true :=
  c1_na_input_raises (.str ("N/A")) (.str ("N/A")) (.str ("N/A")) (.str ("N/A"))
    ("Clear") (.str ("N/A")) (Or.inl rfl)

/-- C1 counterexample: with all fields N/A and forecast Clear, calculate_rwi
raises ValueError (the wind-string parse at line 54 fails first) instead of
returning an RWIResult. -/
theorem c1_counterexample :
    calculate_rwi (.str ("N/A")) (.str ("N/A")) (.str ("N/A")) (.str ("N/A")) ("Clear")
      (.str ("N/A")) = .error ("ValueError") := by
  simp [calculate_rwi, parse_float, pySplitWs, splitWsAux, parseDecimal, splitDotAux, allDigits]

/-- C7 (corrected): parse_float passes a number through; an empty string
gives 0; a non-empty string is split on whitespace and its first token parsed
as a decimal number, with success exactly when the token is numeric — a
string with a non-numeric first token, such as calm, raises ValueError
rather than falling back to 0, and no regex digit extraction is involved. -/
theorem c7_parse_float_behavior :
    (∀ q : ℚ, parse_float (.num q) = .ok q) ∧
    parse_float (.str ("")) = .ok 0 ∧
    (∀ (s t : String) (rest : List String) (q : ℚ), s ≠ "" → pySplitWs s = t :: rest →
      parseDecimal t = some q → parse_float (.str s) = .ok q) ∧
    (∀ (s t : String) (rest : List String), s ≠ "" → pySplitWs s = t :: rest →
      parseDecimal t = none → parse_float (.str s) = .error ("ValueError")) ∧
    parse_float (.str ("calm")) = .error ("ValueError") := by
  refine ⟨fun q => rfl, rfl, ?_, ?_, ?_⟩
  · intro s t rest q hs hsplit hdec
    simp [parse_float, hs, hsplit, hdec]
  · intro s t rest hs hsplit hdec
    simp [parse_float, hs, hsplit, hdec]
  · simp [parse_float, pySplitWs, splitWsAux, parseDecimal, splitDotAux, allDigits]

/-- Witness for C7: the repository's own wind string 5 mph parses to 5. -/
theorem c7_parse_float_behavior_witness : parse_float (.str ("5 mph")) = .ok 5 :=
  c7_parse_float_behavior.2.2.1 ("5 mph") ("5") [("mph")] 5 (by decide) (by decide)
    (by simp +decide [parseDecimal, splitDotAux, allDigits, digitsVal])

/-- C7 counterexample: on the digit-free string calm, parse_float raises
ValueError instead of falling back to 0. -/
theorem c7_counterexample : parse_float (.str ("calm")) = .error ("ValueError") := by
  simp [parse_float, pySplitWs, splitWsAux, parseDecimal, splitDotAux, allDigits]

/-- C8 (corrected): on the concrete scenario temperature 77, humidity 54,
wind 5 mph, precipitation 2, forecast Sunny, dewpoint 59, calculate_rwi
returns rating 4 (favorable) with RWI score 4.01, but the heat index is
76.9 °F, slightly below the stated 78-80 band, and the thermal comfort
component is 3.61, below 4. -/
theorem c8_concrete_scenario :
    calculate_rwi (.num 77) (.num 54) (.str ("5 mph")) (.num 2) ("Sunny") (.num 59) =
      .ok { rwi_score := 401/100, rating := 4, heat_index := 769/10,
            components :=
              { thermal_comfort := 361/100, solar_conditions := 431/100,
                wind := 9/2, precipitation := 5, dewpoint_comfort := 7/2 } } := by
  have hpf : parse_float (.str ("5 mph")) = .ok 5 := by
    simp +decide [parse_float, pySplitWs, splitWsAux, parseDecimal, splitDotAux,
      allDigits, digitsVal]
  have hs : sunnyWords (pyToLower ("Sunny")) = true := by decide
  simp only [calculate_rwi, hpf, asNum]
  norm_num [calculateRwiCore, calculate_heat_index, simpleHI, rothHI, thermalScore,
    coldAdjust, solarScore, hs, windScore, precipScore, dewScore, rwiRating,
    pyRound, roundHalfEven]

/-- C8 counterexample: at the scenario input the wrapped call succeeds, yet
the heat index of the result is below 78 (it is 76.9, not in the claimed
78-80 band) and the thermal comfort component is below 4 (it is 3.61). -/
theorem c8_counterexample :
    calculate_rwi (.num 77) (.num 54) (.str ("5 mph")) (.num 2) ("Sunny") (.num 59) =
      .ok (calculateRwiCore 77 54 5 2 59 ("Sunny")) ∧
    (calculateRwiCore 77 54 5 2 59 ("Sunny")).heat_index < 78 ∧
    (calculateRwiCore 77 54 5 2 59 ("Sunny")).components.thermal_comfort < 4 := by
  have hpf : parse_float (.str ("5 mph")) = .ok 5 := by
    simp +decide [parse_float, pySplitWs, splitWsAux, parseDecimal, splitDotAux,
      allDigits, digitsVal]
  have hs : sunnyWords (pyToLower ("Sunny")) = true := by decide
  refine ⟨by simp only [calculate_rwi, hpf, asNum], ?_, ?_⟩ <;>
    norm_num [calculateRwiCore, calculate_heat_index, simpleHI, rothHI, thermalScore,
      coldAdjust, solarScore, hs, windScore, precipScore, dewScore,
      pyRound, roundHalfEven]

/-- C9 (corrected): restricted to humidities in the physical range from 0 to
100, at every point where the simplified formula sits exactly on the 80 °F
switch-over threshold the Rothfusz regression differs from it by at most
2 °F, so there is no larger discontinuous jump in calculate_heat_index. -/
theorem c9_boundary_agreement (T R : ℚ) (hR0 : 0 ≤ R) (hR1 : R ≤ 100)
    (hb : simpleHI T R = 80) : |rothHI T R - simpleHI T R| ≤ 2 := by
  have hT : T = (90300 - 47 * R) / 1100 := by
    unfold simpleHI at hb
    field_simp at hb
    linarith
  subst hT
  rw [hb, abs_le]
  unfold rothHI
  have h100 : (0 : ℚ) ≤ 100 - R := by linarith
  constructor
  · nlinarith [sq_nonneg (R - 75), sq_nonneg (R - 15), sq_nonneg R, sq_nonneg (R - 100),
      sq_nonneg (R - 50), mul_nonneg hR0 h100,
      mul_nonneg (mul_nonneg hR0 h100) (sq_nonneg (R - 75)),
      mul_nonneg (mul_nonneg hR0 h100) (sq_nonneg (R - 15)),
      mul_nonneg (mul_nonneg hR0 h100) (mul_nonneg hR0 h100)]
  · nlinarith [sq_nonneg (R - 75), sq_nonneg (R - 15), sq_nonneg R, sq_nonneg (R - 100),
      sq_nonneg (R - 50), mul_nonneg hR0 h100,
      mul_nonneg (mul_nonneg hR0 h100) (sq_nonneg (R - 75)),
      mul_nonneg (mul_nonneg hR0 h100) (sq_nonneg (R - 15)),
      mul_nonneg (mul_nonneg hR0 h100) (mul_nonneg hR0 h100)]

/-- Witness for C9 at the boundary point with humidity 0. -/
theorem c9_boundary_agreement_witness :
    |rothHI (903/11) 0 - simpleHI (903/11) 0| ≤ 2 :=
  c9_boundary_agreement (903/11) 0 (by norm_num) (by norm_num) (by norm_num [simpleHI])

/-- C9 counterexample: at humidity 200 (which the scoring code accepts), the
point T 809/11 lies exactly on the 80 °F switch-over threshold of the
simplified formula, yet the Rothfusz regression differs from it by far more
than 2 °F. -/
theorem c9_counterexample :
    simpleHI (809/11) 200 = 80 ∧ 2 < simpleHI (809/11) 200 - rothHI (809/11) 200 := by
  constructor <;> norm_num [simpleHI, rothHI]

end VitaApp
